import Mathlib

/-!
Shallow embedding of the C-runtime compatibility shim in
`src/bindings/rust/lib.rs` of tree-sitter-tlaplus, together with theorems
checking the specification's claims about it.

Conventions of the embedding:
* Rust `u32` / `usize` values are modelled as `Nat` (the functions below only
  compare them, so no wraparound arithmetic is involved);
* the C-ABI classifier results (`i32`) are modelled as `Int`;
* a Rust panic (`unwrap` on `Err`/`None`), which is process-fatal across the
  `extern "C"` boundary, is modelled as the `none` case of an `Option` result;
* the host allocator is an explicit parameter (a function from layouts to
  addresses), with address `0` standing for the null pointer that
  `std::alloc::alloc` returns on exhaustion;
* the modelled host is 64-bit: `usize` is 64 bits wide and
  `align_of::<usize>() = 8`.
-/

namespace TreeSitterTlaplus

/-! ## Character classifiers (`iswspace`, `iswdigit`, `iswalnum`) -/

/-- `iswspace` from `src/bindings/rust/lib.rs`: returns 1 when the code point
is space, tab or newline, otherwise 0. -/
def iswspace (wc : Nat) : Int :=
  if wc = Char.toNat ' ' ∨ wc = Char.toNat '\t' ∨ wc = Char.toNat '\n' then 1 else 0

/-- `iswdigit` from `src/bindings/rust/lib.rs`: returns 1 when the code point
is an ASCII decimal digit, otherwise 0. -/
def iswdigit (wc : Nat) : Int :=
  if Char.toNat '0' ≤ wc ∧ wc ≤ Char.toNat '9' then 1 else 0

/-- `iswalnum` from `src/bindings/rust/lib.rs`: returns 1 when the code point
is an ASCII decimal digit or an ASCII letter of either case, otherwise 0. -/
def iswalnum (wc : Nat) : Int :=
  if (Char.toNat '0' ≤ wc ∧ wc ≤ Char.toNat '9')
      ∨ (Char.toNat 'a' ≤ wc ∧ wc ≤ Char.toNat 'z')
      ∨ (Char.toNat 'A' ≤ wc ∧ wc ≤ Char.toNat 'Z') then 1 else 0

end TreeSitterTlaplus

open TreeSitterTlaplus

/-- C6: for every code point `c` in the unsigned 32-bit domain,
`classifyWhitespace(c)` (the shim's `iswspace`) is nonzero iff `c` is space,
tab or newline; the embedded function is total. -/
theorem iswspace_correct (c : Nat) (h : c < 2 ^ 32) :
    iswspace c ≠ 0 ↔ (c = Char.toNat ' ' ∨ c = Char.toNat '\t' ∨ c = Char.toNat '\n') := by
  unfold iswspace
  split
  case isTrue h' => simpa using h'
  case isFalse h' => simpa using h'

/-- C6 witness: the claim instantiated at the concrete code point 32 (space). -/
theorem iswspace_correct_witness :
    (32 : Nat) < 2 ^ 32 ∧
      (iswspace 32 ≠ 0 ↔
        ((32 : Nat) = Char.toNat ' ' ∨ (32 : Nat) = Char.toNat '\t'
          ∨ (32 : Nat) = Char.toNat '\n')) :=
  ⟨by decide, iswspace_correct 32 (by decide)⟩

/-- C7: for every code point `c` in the unsigned 32-bit domain,
`classifyDigit(c)` (the shim's `iswdigit`) is nonzero iff
`'0' ≤ c ≤ '9'`. -/
theorem iswdigit_correct (c : Nat) (h : c < 2 ^ 32) :
    iswdigit c ≠ 0 ↔ (Char.toNat '0' ≤ c ∧ c ≤ Char.toNat '9') := by
  unfold iswdigit
  split
  case isTrue h' => simpa using h'
  case isFalse h' => simpa using h'

/-- C7 witness: the claim instantiated at the concrete code point 53 (`'5'`). -/
theorem iswdigit_correct_witness :
    (53 : Nat) < 2 ^ 32 ∧
      (iswdigit 53 ≠ 0 ↔ (Char.toNat '0' ≤ (53 : Nat) ∧ (53 : Nat) ≤ Char.toNat '9')) :=
  ⟨by decide, iswdigit_correct 53 (by decide)⟩

/-- C8: for every code point `c` in the unsigned 32-bit domain,
`classifyAlnum(c)` (the shim's `iswalnum`) is nonzero iff `c` is an ASCII
decimal digit or an ASCII letter of either case; in particular every value
outside the ASCII range yields 0 rather than an error. -/
theorem iswalnum_correct (c : Nat) (h : c < 2 ^ 32) :
    (iswalnum c ≠ 0 ↔
      ((Char.toNat '0' ≤ c ∧ c ≤ Char.toNat '9')
        ∨ (Char.toNat 'a' ≤ c ∧ c ≤ Char.toNat 'z')
        ∨ (Char.toNat 'A' ≤ c ∧ c ≤ Char.toNat 'Z')))
    ∧ (0x80 ≤ c → iswalnum c = 0) := by
  constructor
  · unfold iswalnum
    split
    case isTrue h' => simpa using h'
    case isFalse h' => simpa using h'
  · intro hc
    unfold iswalnum
    split
    case isTrue h' =>
      exfalso
      rcases h' with h' | h' | h' <;> revert h' <;> simp <;> omega
    case isFalse h' => rfl

/-- C8 witness: the claim instantiated at the concrete code point 955
(a non-ASCII letter, which classifies as non-matching). -/
theorem iswalnum_correct_witness :
    (955 : Nat) < 2 ^ 32 ∧
      ((iswalnum 955 ≠ 0 ↔
        ((Char.toNat '0' ≤ (955 : Nat) ∧ (955 : Nat) ≤ Char.toNat '9')
          ∨ (Char.toNat 'a' ≤ (955 : Nat) ∧ (955 : Nat) ≤ Char.toNat 'z')
          ∨ (Char.toNat 'A' ≤ (955 : Nat) ∧ (955 : Nat) ≤ Char.toNat 'Z')))
      ∧ (0x80 ≤ (955 : Nat) → iswalnum 955 = 0)) :=
  ⟨by decide, iswalnum_correct 955 (by decide)⟩

/-- C10: each of the three classifiers returns exactly 0 or exactly 1 on every
input code point, never any other nonzero integer. -/
theorem classifiers_canonical (c : Nat) :
    (iswspace c = 0 ∨ iswspace c = 1)
    ∧ (iswdigit c = 0 ∨ iswdigit c = 1)
    ∧ (iswalnum c = 0 ∨ iswalnum c = 1) := by
  refine ⟨?_, ?_, ?_⟩ <;> first
    | (unfold iswspace; split <;> simp)
    | (unfold iswdigit; split <;> simp)
    | (unfold iswalnum; split <;> simp)

namespace TreeSitterTlaplus

/-! ## Allocator shim (`malloc`, `free`, `realloc`) -/

/-- A Rust `std::alloc::Layout`: a size/alignment pair. -/
structure Layout where
  size : Nat
  align : Nat
deriving DecidableEq, Repr

/-- `isize::MAX` on the modelled 64-bit host. -/
def isizeMax : Nat := 2 ^ 63 - 1

/-- `align_of::<usize>()` on the modelled 64-bit host. -/
def alignOfUsize : Nat := 8

/-- `usize::is_power_of_two`. -/
def isPow2 (n : Nat) : Bool := n != 0 && (n &&& (n - 1)) == 0

/-- `std::alloc::Layout::from_size_align`: succeeds iff the alignment is a
power of two and the size does not overflow `isize::MAX` once rounded up to
the alignment. -/
def Layout.from_size_align (size align : Nat) : Option Layout :=
  if isPow2 align ∧ size ≤ isizeMax - (align - 1) then some ⟨size, align⟩ else none

/-- The layout `malloc` in `src/bindings/rust/lib.rs` builds for a request of
`size` bytes (`none` models the process-fatal `unwrap` panic). -/
def mallocLayout (size : Nat) : Option Layout :=
  Layout.from_size_align size alignOfUsize

/-- `malloc` from `src/bindings/rust/lib.rs`, parametrised by the host
allocator `hostAlloc` (`std::alloc::alloc`), which maps a layout to the
returned address; address 0 is the null pointer it returns on exhaustion.
`none` models the process-fatal `unwrap` panic on an invalid layout. -/
def malloc (hostAlloc : Layout → Nat) (size : Nat) : Option Nat :=
  (mallocLayout size).map hostAlloc

/-- `free` from `src/bindings/rust/lib.rs`: the observable effect is the
layout it reconstructs and passes to `std::alloc::dealloc` for the given
address, which the result records (`none` would model an `unwrap` panic). -/
def free (ptr : Nat) : Option Layout :=
  Layout.from_size_align 0 alignOfUsize

/-- The `old_layout` that `realloc` in `src/bindings/rust/lib.rs` reconstructs
and passes to `std::alloc::realloc`. -/
def reallocOldLayout : Option Layout :=
  Layout.from_size_align 0 alignOfUsize

/-- The `new_layout` that `realloc` in `src/bindings/rust/lib.rs` builds for
the requested new size. -/
def reallocNewLayout (size : Nat) : Option Layout :=
  Layout.from_size_align size alignOfUsize

/-- `realloc` from `src/bindings/rust/lib.rs`, parametrised by the host
reallocator `hostRealloc` (`std::alloc::realloc`), which receives the address,
the old layout the shim reconstructed, and the new size. `none` models the
process-fatal `unwrap` panic on an invalid layout. -/
def realloc (hostRealloc : Nat → Layout → Nat → Nat) (ptr size : Nat) : Option Nat := do
  let oldL ← reallocOldLayout
  let newL ← reallocNewLayout size
  pure (hostRealloc ptr oldL newL.size)

/-- The contents of a reallocated block under the documented
`GlobalAlloc::realloc` contract: the host guarantees preservation of the old
contents only up to `min(oldLayout.size, newSize)`; bytes beyond that are
unspecified (modelled here as 0). `content` is the block's actual old
contents. -/
def growPreserving (content : List Nat) (oldLayoutSize newSize : Nat) : List Nat :=
  content.take (min oldLayoutSize newSize)
    ++ List.replicate (newSize - min oldLayoutSize newSize) 0

end TreeSitterTlaplus

/-- C1 (code_bug evaluation): allocating 16 bytes records layout
`⟨16, 8⟩`, but at release time and at resize time the shim reconstructs the
zero-size layout `⟨0, 8⟩`, which does not match the allocation layout. -/
theorem release_layout_mismatch :
    mallocLayout 16 = some ⟨16, 8⟩
    ∧ free 1 = some ⟨0, 8⟩
    ∧ reallocOldLayout = some ⟨0, 8⟩
    ∧ free 1 ≠ mallocLayout 16
    ∧ reallocOldLayout ≠ mallocLayout 16 := by
  refine ⟨by decide, by decide, by decide, by decide, by decide⟩

/-- C2 counterexample: with an exhausted host allocator (every request answered
by the null address 0), `malloc 16` returns the null failure value `some 0` to
the caller instead of aborting the process (`none`). -/
theorem malloc_null_on_exhaustion :
    malloc (fun _ => 0) 16 = some 0 ∧ malloc (fun _ => 0) 16 ≠ none := by
  refine ⟨by decide, by decide⟩

/-- C2 amended: `malloc size` aborts the process (models as `none`) exactly
when the layout request is invalid (`size` overflows the alignment/size
invariant); otherwise it returns whatever address the host allocator answers —
including the null address on exhaustion, which is passed through to the
caller rather than aborting. -/
theorem malloc_amended (hostAlloc : TreeSitterTlaplus.Layout → Nat) (size : Nat) :
    (size ≤ isizeMax - (alignOfUsize - 1) →
      malloc hostAlloc size = some (hostAlloc ⟨size, alignOfUsize⟩))
    ∧ (isizeMax - (alignOfUsize - 1) < size → malloc hostAlloc size = none) := by
  constructor
  · intro h
    have hc : isPow2 alignOfUsize = true ∧ size ≤ isizeMax - (alignOfUsize - 1) :=
      ⟨by decide, h⟩
    unfold malloc mallocLayout Layout.from_size_align
    rw [if_pos hc]
    rfl
  · intro h
    unfold malloc mallocLayout Layout.from_size_align
    rw [if_neg]
    · rfl
    · rintro ⟨-, hle⟩
      omega

/-- C2 amended witness: at size 16 the host's answer (here 7) is returned; at
size `2^63` the layout is invalid and `malloc` aborts. -/
theorem malloc_amended_witness :
    malloc (fun _ => 7) 16 = some 7 ∧ malloc (fun _ => 7) (2 ^ 63) = none :=
  ⟨(malloc_amended (fun _ => 7) 16).1 (by decide),
    (malloc_amended (fun _ => 7) (2 ^ 63)).2 (by decide)⟩

/-- C4 (code_bug evaluation): `realloc` always hands the host a zero-size old
layout, so under the host reallocator's contract the guaranteed preserved
overlap is empty: resizing a 4-byte block containing `[7,7,7,7]` to 8 bytes
may return a block with none of the old bytes, whereas passing the true old
size 4 would have preserved them at the same offsets. -/
theorem realloc_drops_overlap :
    reallocOldLayout = some ⟨0, 8⟩
    ∧ growPreserving [7, 7, 7, 7] 0 8 = [0, 0, 0, 0, 0, 0, 0, 0]
    ∧ growPreserving [7, 7, 7, 7] 4 8 = [7, 7, 7, 7, 0, 0, 0, 0]
    ∧ (growPreserving [7, 7, 7, 7] 0 8).getD 0 99 ≠ 7 := by
  refine ⟨by decide, by decide, by decide, by decide⟩

/-- C5: every layout the shim builds — in `malloc`, `free`, and both layouts
of `realloc` — uses the single fixed alignment `align_of::<usize>()`. -/
theorem alignment_fixed (size ptr : Nat) (L : TreeSitterTlaplus.Layout) :
    (mallocLayout size = some L → L.align = alignOfUsize)
    ∧ (free ptr = some L → L.align = alignOfUsize)
    ∧ (reallocOldLayout = some L → L.align = alignOfUsize)
    ∧ (reallocNewLayout size = some L → L.align = alignOfUsize) := by
  refine ⟨?_, ?_, ?_, ?_⟩ <;>
    · intro h
      simp only [mallocLayout, free, reallocOldLayout, reallocNewLayout,
        Layout.from_size_align] at h
      split at h
      · cases h
        rfl
      · cases h

/-- C5 witness: the `malloc` layout for 16 bytes has the fixed alignment. -/
theorem alignment_fixed_witness :
    TreeSitterTlaplus.Layout.align ⟨16, 8⟩ = alignOfUsize :=
  (alignment_fixed 16 0 ⟨16, 8⟩).1 (by decide)

namespace TreeSitterTlaplus

/-! ## Diagnostic hook (`__assert_fail`)

The three C-string arguments are modelled as the byte lists preceding their
NUL terminators. `CStr::to_str` succeeds exactly when those bytes are valid
UTF-8, so the hook is modelled with a UTF-8 validity check; its `none` result
models the process-fatal `unwrap` panic on a `Utf8Error`, and its `some`
result carries the bytes that `println!` writes. -/

/-- A UTF-8 continuation byte (`0x80 ..= 0xBF`). -/
def utf8Cont (b : Nat) : Bool := 0x80 ≤ b && b ≤ 0xBF

/-- UTF-8 validity of a byte sequence, following the table in RFC 3629 that
Rust's `str::from_utf8` implements. -/
def utf8Valid : List Nat → Bool
  | [] => true
  | b :: rest =>
    if b ≤ 0x7F then utf8Valid rest
    else if 0xC2 ≤ b && b ≤ 0xDF then
      match rest with
      | b1 :: rest1 => utf8Cont b1 && utf8Valid rest1
      | [] => false
    else if b = 0xE0 then
      match rest with
      | b1 :: b2 :: rest2 =>
        (0xA0 ≤ b1 && b1 ≤ 0xBF) && utf8Cont b2 && utf8Valid rest2
      | _ => false
    else if (0xE1 ≤ b && b ≤ 0xEC) || (0xEE ≤ b && b ≤ 0xEF) then
      match rest with
      | b1 :: b2 :: rest2 => utf8Cont b1 && utf8Cont b2 && utf8Valid rest2
      | _ => false
    else if b = 0xED then
      match rest with
      | b1 :: b2 :: rest2 =>
        (0x80 ≤ b1 && b1 ≤ 0x9F) && utf8Cont b2 && utf8Valid rest2
      | _ => false
    else if b = 0xF0 then
      match rest with
      | b1 :: b2 :: b3 :: rest3 =>
        (0x90 ≤ b1 && b1 ≤ 0xBF) && utf8Cont b2 && utf8Cont b3 && utf8Valid rest3
      | _ => false
    else if 0xF1 ≤ b && b ≤ 0xF3 then
      match rest with
      | b1 :: b2 :: b3 :: rest3 =>
        utf8Cont b1 && utf8Cont b2 && utf8Cont b3 && utf8Valid rest3
      | _ => false
    else if b = 0xF4 then
      match rest with
      | b1 :: b2 :: b3 :: rest3 =>
        (0x80 ≤ b1 && b1 ≤ 0x8F) && utf8Cont b2 && utf8Cont b3 && utf8Valid rest3
      | _ => false
    else false

/-- The bytes of an ASCII string literal. -/
def strBytes (s : String) : List Nat := s.toList.map Char.toNat

/-- `__assert_fail` from `src/bindings/rust/lib.rs`. The result is `some` of
the bytes `println!` writes to standard output (with its trailing newline)
when all three strings decode, and `none` — the process-fatal `unwrap` panic
propagating out of the hook — when any of them is not valid UTF-8. -/
def __assert_fail (assertion file : List Nat) (line : Nat) (function : List Nat) :
    Option (List Nat) :=
  if utf8Valid assertion && utf8Valid file && utf8Valid function then
    some (strBytes "Assertion failed: " ++ assertion
      ++ strBytes ", file: " ++ file
      ++ strBytes ", line: " ++ strBytes (toString line)
      ++ strBytes ", function: " ++ function ++ [10])
  else
    none

end TreeSitterTlaplus

/-- C3 (code_bug evaluation): called with an assertion string whose bytes
`[0xFF]` are not valid UTF-8 (and empty file/function strings, line 0), the
hook does not fall back to a placeholder: the decoding failure propagates as a
panic out of the hook, modelled by the `none` result. -/
theorem assert_fail_panics_on_invalid_utf8 :
    __assert_fail [0xFF] [] 0 [] = none
    ∧ __assert_fail [] [0xFF] 0 [] = none
    ∧ __assert_fail [] [] 0 [0xFF] = none := by
  refine ⟨by decide, by decide, by decide⟩

/-- C9: called with empty (valid) strings and line number 0, the hook returns
normally and the report it prints starts with the literal substring
"Assertion failed" (so in particular contains it). -/
theorem assert_fail_empty_ok :
    __assert_fail [] [] 0 [] =
      some (strBytes "Assertion failed"
        ++ strBytes ": , file: , line: 0, function: " ++ [10]) := by
  decide
